import Mathlib

/-!
# Verification of the Quadifier frame-capture core

This file is a shallow embedding of the capture protocol, stereo-signal
detector, consumer composite pass, cross-thread frame handshake and
lifecycle controller implemented in
`quadifier/win32/module/source/Quadifier.cpp`, together with theorems
checking the specification of that core against the code.

Modelling conventions:
* machine integers (`GLuint`, `unsigned`, `DWORD`) are modelled as `Nat`;
  all index arithmetic in the source is `(i + 1) % m_target.size()`, which
  is carried over literally;
* fallible external calls (Direct3D / OpenGL entry points) are modelled by
  boolean success parameters supplied to the embedded functions, so a
  theorem quantifying over them covers every success/failure pattern;
* diagnostic logging is modelled, where a claim mentions it, as an emitted
  event; log-level gating (`Log::info()` etc.) is abstracted away since it
  only filters diagnostics;
* wall-clock timestamps (`getTime`, `m_firstFrameTimeGL`,
  `m_lastFrameTimeGL`) are diagnostics only and are not modelled.
-/

namespace Quadifier

/-! ## Constants

OpenGL draw-buffer enumerants used by the source as slot labels
(`GL_BACK` et al. from `GL/gl.h`), written in decimal. A slot whose
`drawBuffer` field still holds `GL_NONE` (the value-initialised state) has
never been tagged by `endCapture`. -/

def GL_NONE : Nat := 0

def GL_BACK_LEFT : Nat := 1026

def GL_BACK_RIGHT : Nat := 1027

def GL_BACK : Nat := 1029

/-- Modelled from the spec: `m_target` is declared in `Quadifier.h`, which
is not part of the sources; the spec fixes the shared render-target pool
as "a fixed-size ring of N=2 GPU surfaces" (pool size = 2). -/
def poolSize : Nat := 2

/-! ## Data model -/

/-- Modelled after one element of `m_target` (declared in `Quadifier.h`):
one pool slot. `drawBuffer` is the GL draw-buffer label the slot was last
tagged with by `endCapture` (`GL_NONE` until first tagged, mirroring
value-initialisation of the member). `surface` is the Direct3D surface
handle (0 = null before creation) and `object` the GL/DX interop
registration handle (0 = null before registration). -/
structure RenderTarget where
  drawBuffer : Nat
  surface : Nat
  object : Nat
deriving DecidableEq, Repr

instance : Inhabited RenderTarget := ⟨⟨GL_NONE, 0, 0⟩⟩

/-- Settings read by the core (`Settings::get()`): `useTexture` selects
texture vs renderbuffer backing, `matchOriginalMSAA` forces the GL window
to match the DirectX multisample count (its negation is `mustUseBlit` in
`onPaint`), `stereoIndicator` draws the on-screen eye indicator. -/
structure Settings where
  useTexture : Bool
  matchOriginalMSAA : Bool
  stereoIndicator : Bool
deriving DecidableEq, Repr

/-- Mutable state of the `Quadifier` instance relevant to the capture
protocol: `drawIdx` is `m_drawBuffer`, `readIdx` is `m_readBuffer`,
`stereoMode` is `m_stereoMode`, `framesDX`/`framesGL` the frame counters,
`quadList` whether the cached display list `m_quadListGL` has been built,
`width`/`height` are `m_width`/`m_height`, `presentedTargets` the set of
render-target hashes seen at present time, and `target` the slot pool. -/
structure QState where
  drawIdx : Nat
  readIdx : Nat
  stereoMode : Bool
  framesDX : Nat
  framesGL : Nat
  quadList : Bool
  width : Nat
  height : Nat
  presentedTargets : List Nat
  target : List RenderTarget
deriving DecidableEq, Repr

/-- Label of pool slot `i` (the `drawBuffer` member of `m_target[i]`). -/
def labelAt (s : QState) (i : Nat) : Nat :=
  (s.target.getD i default).drawBuffer

/-- Interop object handle of pool slot `i` (`m_target[i].object`). -/
def objectAt (s : QState) (i : Nat) : Nat :=
  (s.target.getD i default).object

/-- D3D surface handle of pool slot `i` (`m_target[i].surface`). -/
def surfaceAt (s : QState) (i : Nat) : Nat :=
  (s.target.getD i default).surface

/-- State as built by the constructor `Quadifier::Quadifier`: all counters
zero, both cursors zero, mono mode, value-initialised pool slots. -/
def initState : QState :=
  { drawIdx := 0, readIdx := 0, stereoMode := false, framesDX := 0,
    framesGL := 0, quadList := false, width := 0, height := 0,
    presentedTargets := [], target := List.replicate poolSize default }

/-- State at the start of a session after one-time resource creation has
completed (surfaces created by `createResources`, interop objects
registered by `onCreate`): both cursors zero, mono mode, slots carry the
given surface/object handles and have never been tagged
(`drawBuffer == GL_NONE`). -/
def readyState (w h surf0 surf1 obj0 obj1 : Nat) : QState :=
  { drawIdx := 0, readIdx := 0, stereoMode := false, framesDX := 0,
    framesGL := 0, quadList := false, width := w, height := h,
    presentedTargets := [],
    target := [⟨GL_NONE, surf0, obj0⟩, ⟨GL_NONE, surf1, obj1⟩] }

/-! ## Capture protocol (producer side) -/

/-- Producer-side events emitted by the capture handlers, used to state
claims about call order and logging: the "Stereo enabled" log line, the
calls to `endCapture`/`beginCapture`, and the `WM_USER_NEWFRAME`
notification sent to the GL window. -/
inductive CEv
  | logStereoEnabled
  | endCaptureEv (label : Nat)
  | beginCaptureEv
  | notifyNewFrame
deriving DecidableEq, Repr

/-- Embedding of `Quadifier::endCapture`: tags `m_target[m_drawBuffer]`
with the given draw-buffer label, advances
`m_drawBuffer = (m_drawBuffer + 1) % m_target.size()`, and counts a DX
frame when in stereo mode. -/
def endCapture (label : Nat) (s : QState) : QState :=
  let t := s.target.getD s.drawIdx default
  { s with
    target := s.target.set s.drawIdx { t with drawBuffer := label },
    drawIdx := (s.drawIdx + 1) % s.target.length,
    framesDX := if s.stereoMode then s.framesDX + 1 else s.framesDX }

/-- Embedding of `Quadifier::onStereoSignal`: if not already in stereo
mode, sets `m_stereoMode` and logs the transition; then ends the left-eye
capture and begins the right-eye capture. Returns the new state and the
events emitted, in order. -/
def onStereoSignal (s : QState) : QState × List CEv :=
  let logEvs : List CEv := if s.stereoMode then [] else [CEv.logStereoEnabled]
  let s1 := { s with stereoMode := true }
  (endCapture GL_BACK_LEFT s1,
    logEvs ++ [CEv.endCaptureEv GL_BACK_LEFT, CEv.beginCaptureEv])

/-- Direct3D viewport (`D3DVIEWPORT9`) as read by the core: the handler
only inspects `X`, `Width` and `Height` (never `Y`, `MinZ`, `MaxZ`); the
float depth-range members are omitted. -/
structure Viewport where
  x : Nat
  y : Nat
  width : Nat
  height : Nat
deriving DecidableEq, Repr

/-- Test for the reserved sentinel rectangle: a viewport with `X == 1`,
`Width == 2` and `Height == 3` (any `Y`) is the scripted stereo signal. -/
def isSentinel (v : Viewport) : Bool :=
  v.x == 1 && v.width == 2 && v.height == 3

/-- Embedding of `Quadifier::onPreSetViewportDX`: a null viewport pointer
(`none`) is passed through untouched; the sentinel rectangle invokes
`onStereoSignal`; every call returns `true` so the `SetViewport` call is
passed on to Direct3D. -/
def onPreSetViewportDX (vp : Option Viewport) (s : QState) :
    Bool × QState × List CEv :=
  match vp with
  | none => (true, s, [])
  | some v =>
    if isSentinel v then
      let r := onStereoSignal s
      (true, r.1, r.2)
    else
      (true, s, [])

/-- Embedding of `Quadifier::onPrePresentDX`: records the current render
target in the presented-target set (insert if absent), ends the capture
labelling it `GL_BACK_RIGHT` in stereo mode or `GL_BACK` otherwise, and
sends the new-frame notification. `rt` is the render-target pointer hash. -/
def onPrePresentDX (rt : Nat) (s : QState) : QState × List CEv :=
  let s1 := { s with
    presentedTargets :=
      if s.presentedTargets.contains rt then s.presentedTargets
      else rt :: s.presentedTargets }
  let label := if s1.stereoMode then GL_BACK_RIGHT else GL_BACK
  (endCapture label s1, [CEv.endCaptureEv label, CEv.notifyNewFrame])

/-! ## Cross-thread frame handshake -/

/-- Modelled from the spec: the frame-consumed signal primitive
(`m_frameDone`, class `Event` declared in `Quadifier.h`, not among the
sources). Per the spec it is a bounded wait: `wait(timeout)` returns when
the consumer signals or when the timeout elapses, whichever is sooner.
`signalAt` is the time (ms) at which the consumer signals, or `none` if it
never does; the result is the time at which the producer resumes. -/
def eventWait (timeout : Nat) (signalAt : Option Nat) : Nat :=
  match signalAt with
  | none => timeout
  | some t => min t timeout

/-- Embedding of `Quadifier::onPostPresentDX`: the producer thread blocks
on `m_frameDone.wait( 1000 )` after every presented frame. -/
def onPostPresentDX (signalAt : Option Nat) : Nat :=
  eventWait 1000 signalAt

/-! ## Consumer composite pass -/

/-- Events emitted by one consumer composite pass (`Quadifier::onPaint`),
in program order: one `iter` event per loop iteration recording the slot
read, the label found in it, and whether the interop lock succeeded
(`composited = false` corresponds to the "unable to lock DX target on
paint" log line and the slot being skipped); then optionally the stereo
indicator, the buffer swap (`present`), and the `m_frameDone.signal()`
call. -/
inductive PEv
  | iter (slot : Nat) (label : Nat) (composited : Bool)
  | indicator
  | present
  | frameDone
deriving DecidableEq, Repr

/-- One iteration of the per-eye loop in `Quadifier::onPaint`: reads the
label of `m_target[m_readBuffer]`, attempts the interop lock
(`object != 0 && wglDXLockObjectsNV`, success given by the `lockOk`
oracle), builds the cached quad display list when compositing via the
texture path (`useTexture && !mustUseBlit`), and advances
`m_readBuffer = (m_readBuffer + 1) % m_target.size()`. Returns the new
state, the iteration event, and the label read (which controls loop
exit). -/
def paintIter (cfg : Settings) (lockOk : Bool) (s : QState) :
    QState × PEv × Nat :=
  let t := s.target.getD s.readIdx default
  let label := t.drawBuffer
  let locked := (t.object != 0) && lockOk
  let texPath := cfg.useTexture && cfg.matchOriginalMSAA
  let quad := if locked && texPath then true else s.quadList
  ({ s with readIdx := (s.readIdx + 1) % s.target.length, quadList := quad },
   PEv.iter s.readIdx label locked, label)

/-- Embedding of `Quadifier::onPaint`: up to two per-eye iterations, the
loop exiting early when the label just processed is not `GL_BACK_LEFT`;
then the optional stereo indicator, the buffer swap, the unconditional
`m_frameDone.signal()`, and the GL frame counter increment in stereo
mode. `lock0`/`lock1` give the interop lock outcome for the first and
second iteration. -/
def onPaint (cfg : Settings) (lock0 lock1 : Bool) (s : QState) :
    QState × List PEv :=
  let r1 := paintIter cfg lock0 s
  let step2 :=
    if r1.2.2 != GL_BACK_LEFT then (r1.1, [r1.2.1])
    else
      let r2 := paintIter cfg lock1 r1.1
      (r2.1, [r1.2.1, r2.2.1])
  let evs := step2.2
    ++ (if cfg.stereoIndicator then [PEv.indicator] else [])
    ++ [PEv.present, PEv.frameDone]
  let s3 :=
    if step2.1.stereoMode then
      { step2.1 with framesGL := step2.1.framesGL + 1 }
    else step2.1
  (s3, evs)

/-! ## beginCapture and the Direct3D device -/

/-- Direct3D device state visible to `beginCapture`: the current viewport,
whether `GetViewport` succeeds, the current render target (surface
handle), and whether `SetRenderTarget` succeeds. -/
structure D3DDevice where
  viewport : Viewport
  getViewportOk : Bool
  renderTarget : Nat
  setRenderTargetOk : Bool
deriving DecidableEq, Repr

/-- Setting a new render target implicitly resets the Direct3D viewport
to the full size of the new target (the pool surfaces are created at
`m_width` by `m_height`). -/
def fullSurfaceViewport (w h : Nat) : Viewport := ⟨0, 0, w, h⟩

/-- Embedding of `Quadifier::beginCapture`: saves the current viewport
(when `GetViewport` succeeds), redirects the render target to
`m_target[m_drawBuffer].surface` — calling `exit(1)` (modelled as `none`)
when `SetRenderTarget` fails — and restores the saved viewport. The
result is the device state after the call, or `none` when the process
terminated. -/
def beginCapture (s : QState) (d : D3DDevice) : Option D3DDevice :=
  let saved := if d.getViewportOk then some d.viewport else none
  if !d.setRenderTargetOk then
    none
  else
    let d1 := { d with
      renderTarget := surfaceAt s s.drawIdx,
      viewport := fullSurfaceViewport s.width s.height }
    some (match saved with
      | some v => { d1 with viewport := v }
      | none => d1)

/-! ## Lifecycle controller -/

/-- Inputs to the OpenGL-side one-time setup `Quadifier::onCreate`:
success of `glx.load()`, of `wglDXOpenDeviceNV`, availability of
`wglDXSetResourceShareHandleNV`, and per-slot success of
texture/renderbuffer generation, `wglDXRegisterObjectNV`, and
`glGenFramebuffers`. The interop lock taken while attaching the colour
buffer and the `glCheckFramebufferStatus` result are logged only and do
not affect the success result, mirroring the code. -/
structure GLSetupInputs where
  loadOk : Bool
  interopOpenOk : Bool
  shareHandleFnPresent : Bool
  genOk0 : Bool
  genOk1 : Bool
  registerOk0 : Bool
  registerOk1 : Bool
  fbGenOk0 : Bool
  fbGenOk1 : Bool
deriving DecidableEq, Repr

/-- Per-slot body of the render-buffer creation loop in
`Quadifier::onCreate`: the loop breaks at the first failing step of a
slot (ID generation, missing share-handle entry point, interop
registration, framebuffer generation). -/
def slotSetupOk (shareFn gen reg fb : Bool) : Bool :=
  gen && shareFn && reg && fb

/-- Embedding of the success result of `Quadifier::onCreate`: `success`
is `i == m_target.size()` after the loop, so it holds exactly when
extension loading and interop-device opening succeeded and both slots
completed every step. -/
def onCreate (inp : GLSetupInputs) : Bool :=
  inp.loadOk && inp.interopOpenOk
    && slotSetupOk inp.shareHandleFnPresent inp.genOk0 inp.registerOk0 inp.fbGenOk0
    && slotSetupOk inp.shareHandleFnPresent inp.genOk1 inp.registerOk1 inp.fbGenOk1

/-- Effects of one call to `Quadifier::createResources`:
how many D3D render-target surfaces were created, whether the GL
rendering thread was started (`startRenderThread`), whether
`m_initialised` was set, and whether any quit was requested on the host
window during the call. -/
structure CreateResourcesResult where
  surfacesCreated : Nat
  threadStarted : Bool
  initialised : Bool
  quitRequested : Bool
deriving DecidableEq, Repr

/-- Embedding of `Quadifier::createResources`: if the pool already exists
(`m_target[0].surface != 0`) the call returns immediately with no
effects. Otherwise the creation loop breaks at the first
`CreateRenderTarget` failure (success per slot given by
`allocOk0`/`allocOk1`) — and then, regardless of how many surfaces were
actually created, the code starts the render thread and sets
`m_initialised = true`; no quit is requested here. -/
def createResources (alreadyCreated allocOk0 allocOk1 : Bool) :
    CreateResourcesResult :=
  if alreadyCreated then
    { surfacesCreated := 0, threadStarted := false, initialised := false,
      quitRequested := false }
  else
    { surfacesCreated := if allocOk0 then (if allocOk1 then 2 else 1) else 0,
      threadStarted := true, initialised := true, quitRequested := false }

/-- Control-flow outcome of the GL thread body `Quadifier::threadFunc`:
whether the message loop was entered, and whether `WM_QUIT` was posted to
the source (host) window. -/
structure ThreadFuncResult where
  messageLoopEntered : Bool
  quitRequestedOnSource : Bool
deriving DecidableEq, Repr

/-- Embedding of `Quadifier::threadFunc` (after subclassing the source
window): if GL window creation fails the thread ends (no quit posted); if
`onCreate` succeeds the window is shown and the message loop runs; if
`onCreate` fails, `WM_QUIT` is posted to the source window and the
message loop is never entered. -/
def threadFunc (windowCreateOk : Bool) (gl : GLSetupInputs) :
    ThreadFuncResult :=
  if !windowCreateOk then
    { messageLoopEntered := false, quitRequestedOnSource := false }
  else if onCreate gl then
    { messageLoopEntered := true, quitRequestedOnSource := false }
  else
    { messageLoopEntered := false, quitRequestedOnSource := true }

/-! ## The event machine

Operations of the core that touch the capture-protocol state, as invoked
by the external event sources (the Direct3D proxy on the producer thread,
the GL window procedure on the consumer thread). `onPreClearDX` and
`beginCapture` act only on the device / lifecycle (modelled separately)
and do not modify this state; `onDestroy` frees the cached display
list. -/

inductive Ev
  | preSetViewport (vp : Option Viewport)
  | prePresent (rt : Nat)
  | postPresent
  | paint (cfg : Settings) (lock0 lock1 : Bool)
  | resize (w h : Nat)
  | destroy
deriving DecidableEq, Repr

/-- One step of the core: dispatch of a single external event to its
handler. -/
def step (s : QState) : Ev → QState
  | Ev.preSetViewport vp => (onPreSetViewportDX vp s).2.1
  | Ev.prePresent rt => (onPrePresentDX rt s).1
  | Ev.postPresent => s
  | Ev.paint cfg l0 l1 => (onPaint cfg l0 l1 s).1
  | Ev.resize w h => { s with width := w, height := h }
  | Ev.destroy => { s with quadList := false }

/-- Run of the core over a sequence of external events. -/
def run (s : QState) (evs : List Ev) : QState :=
  evs.foldl step s

/-! ## Instrumented machine for the cursor invariant

To reason about the never-tagged-slot property the run is instrumented
with ghost counters: `tags` counts `endCapture` calls so far and `reads`
counts composite-loop iterations so far; each composite iteration is also
logged with the counters in force when it read its slot. -/

structure GState where
  q : QState
  tags : Nat
  reads : Nat
deriving DecidableEq, Repr

/-- Log record of one composite-loop iteration: the values of the ghost
counters when the read happened, the slot read, and the label found. -/
structure ReadLogEntry where
  readsBefore : Nat
  tagsAt : Nat
  slot : Nat
  label : Nat
deriving DecidableEq, Repr

/-- Number of `endCapture` calls performed by one event: one per
`onPrePresentDX`, one per sentinel viewport (via `onStereoSignal`). -/
def tagsOfEv : Ev → Nat
  | Ev.preSetViewport none => 0
  | Ev.preSetViewport (some v) => if isSentinel v then 1 else 0
  | Ev.prePresent _ => 1
  | _ => 0

/-- Composite-loop iterations performed by one event, with the ghost
counters at the moment of each read (mirrors the loop-exit condition of
`onPaint`). -/
def readLogOf (g : GState) : Ev → List ReadLogEntry
  | Ev.paint _ _ _ =>
    let r := g.q.readIdx
    let e1 : ReadLogEntry := ⟨g.reads, g.tags, r, labelAt g.q r⟩
    if labelAt g.q r != GL_BACK_LEFT then [e1]
    else
      let r2 := (r + 1) % g.q.target.length
      [e1, ⟨g.reads + 1, g.tags, r2, labelAt g.q r2⟩]
  | _ => []

/-- Instrumented step: the underlying state steps as in `step`, the ghost
counters advance by the tags/reads the event performs. -/
def gstep (g : GState) (e : Ev) : GState × List ReadLogEntry :=
  let log := readLogOf g e
  (⟨step g.q e, g.tags + tagsOfEv e, g.reads + log.length⟩, log)

/-- Instrumented run, accumulating the iteration log. -/
def grun (g : GState) : List Ev → GState × List ReadLogEntry
  | [] => (g, [])
  | e :: evs =>
    let p := gstep g e
    let rest := grun p.1 evs
    (rest.1, p.2 ++ rest.2)

/-- Ghost start of a session: the post-initialisation state with zero
counters. -/
def ginit (w h surf0 surf1 obj0 obj1 : Nat) : GState :=
  ⟨readyState w h surf0 surf1 obj0 obj1, 0, 0⟩

/-- Cursor invariant of the instrumented machine: the pool has two slots,
each cursor equals its ghost counter mod 2, and a slot is tagged
(label ≠ `GL_NONE`) exactly when enough `endCapture` calls have occurred
to have reached it in round-robin order. -/
def Inv (g : GState) : Prop :=
  g.q.target.length = 2 ∧
  g.q.drawIdx = g.tags % 2 ∧
  g.q.readIdx = g.reads % 2 ∧
  (labelAt g.q 0 ≠ GL_NONE ↔ 1 ≤ g.tags) ∧
  (labelAt g.q 1 ≠ GL_NONE ↔ 2 ≤ g.tags)

/-- Safety of one logged composite iteration: if the read did not outrun
the tags, the slot it read had been tagged. -/
def GoodEntry (x : ReadLogEntry) : Prop :=
  x.readsBefore < x.tagsAt → x.label ≠ GL_NONE

/-! ## Helper lemmas -/

/-- A two-element list is literally a pair of elements. -/
lemma target_len2 {l : List RenderTarget} (h : l.length = 2) :
    ∃ a b, l = [a, b] := by
  match l, h with
  | [a, b], _ => exact ⟨a, b, rfl⟩

/-- Composite passes never modify the slot pool. -/
lemma onPaint_target (cfg : Settings) (l0 l1 : Bool) (s : QState) :
    (onPaint cfg l0 l1 s).1.target = s.target := by
  simp only [onPaint, paintIter]
  split_ifs <;> rfl

/-- Composite passes never modify the producer cursor. -/
lemma onPaint_drawIdx (cfg : Settings) (l0 l1 : Bool) (s : QState) :
    (onPaint cfg l0 l1 s).1.drawIdx = s.drawIdx := by
  simp only [onPaint, paintIter]
  split_ifs <;> rfl

/-- Composite passes never modify the mode flag. -/
lemma onPaint_stereoMode (cfg : Settings) (l0 l1 : Bool) (s : QState) :
    (onPaint cfg l0 l1 s).1.stereoMode = s.stereoMode := by
  simp only [onPaint, paintIter]
  split_ifs <;> rfl

/-- Consumer cursor advance of one composite pass: one slot when the
first label read is not `GL_BACK_LEFT`, two slots otherwise. -/
lemma onPaint_readIdx (cfg : Settings) (l0 l1 : Bool) (s : QState) :
    (onPaint cfg l0 l1 s).1.readIdx =
      if labelAt s s.readIdx != GL_BACK_LEFT then
        (s.readIdx + 1) % s.target.length
      else ((s.readIdx + 1) % s.target.length + 1) % s.target.length := by
  simp only [onPaint, paintIter, labelAt]
  split_ifs <;> rfl

/-- Event list of one composite pass, in closed form. -/
lemma onPaint_events (cfg : Settings) (l0 l1 : Bool) (s : QState) :
    (onPaint cfg l0 l1 s).2 =
      (if labelAt s s.readIdx != GL_BACK_LEFT then
        [PEv.iter s.readIdx (labelAt s s.readIdx)
          ((objectAt s s.readIdx != 0) && l0)]
       else
        [PEv.iter s.readIdx (labelAt s s.readIdx)
          ((objectAt s s.readIdx != 0) && l0),
         PEv.iter ((s.readIdx + 1) % s.target.length)
          (labelAt s ((s.readIdx + 1) % s.target.length))
          ((objectAt s ((s.readIdx + 1) % s.target.length) != 0) && l1)])
      ++ (if cfg.stereoIndicator then [PEv.indicator] else [])
      ++ [PEv.present, PEv.frameDone] := by
  simp only [onPaint, paintIter, labelAt, objectAt]
  split <;> rfl

/-! ## Claims -/

/-- C10: `onPreSetViewportDX` is total and always returns `true`, passing
the viewport-configuration call through to Direct3D for every input; a
null viewport pointer is handled without dereference, leaves the state
untouched and never triggers the stereo signal. -/
theorem C10_preSetViewport_total_passthrough :
    (∀ vp s, (onPreSetViewportDX vp s).1 = true) ∧
    (∀ s, onPreSetViewportDX none s = (true, s, [])) := by
  refine ⟨fun vp s => ?_, fun s => rfl⟩
  cases vp with
  | none => rfl
  | some v =>
    simp only [onPreSetViewportDX]
    split <;> rfl

/-- C1: after every presented frame the producer blocks on the
frame-consumed wait with a bounded 1000 ms timeout and resumes no later
than the timeout even if the consumer never signals; and every consumer
composite pass raises the frame-consumed signal exactly once, as its
final action, unconditionally — for every lock outcome, including lock
failure on either slot. -/
theorem C1_bounded_wait_unconditional_signal :
    (∀ signalAt, onPostPresentDX signalAt ≤ 1000) ∧
    onPostPresentDX none = 1000 ∧
    (∀ cfg l0 l1 s,
      (onPaint cfg l0 l1 s).2.count PEv.frameDone = 1 ∧
      (onPaint cfg l0 l1 s).2.getLast? = some PEv.frameDone) := by
  refine ⟨fun signalAt => ?_, rfl, fun cfg l0 l1 s => ⟨?_, ?_⟩⟩
  · cases signalAt with
    | none => exact le_refl 1000
    | some t => exact min_le_right t 1000
  · rw [onPaint_events]
    split <;> split <;> simp [List.count_append, List.count_cons]
  · rw [onPaint_events]
    rw [List.getLast?_append_of_ne_nil _ (by simp)]
    rfl

/-- C7: `endCapture(label)` tags `pool[drawIndex]` with the given label,
advances `drawIndex` to `(drawIndex + 1) mod poolSize`, and increments
the producer (DX) frame counter exactly when the mode flag is stereo at
the time of the call; every other slot and every other field of the
capture state is unchanged. -/
theorem C7_endCapture (s : QState) (label : Nat)
    (h : s.drawIdx < s.target.length) :
    labelAt (endCapture label s) s.drawIdx = label ∧
    surfaceAt (endCapture label s) s.drawIdx = surfaceAt s s.drawIdx ∧
    objectAt (endCapture label s) s.drawIdx = objectAt s s.drawIdx ∧
    (∀ j, j ≠ s.drawIdx →
      (endCapture label s).target.getD j default = s.target.getD j default) ∧
    (endCapture label s).drawIdx = (s.drawIdx + 1) % s.target.length ∧
    (endCapture label s).framesDX
      = s.framesDX + (if s.stereoMode then 1 else 0) ∧
    (endCapture label s).readIdx = s.readIdx ∧
    (endCapture label s).stereoMode = s.stereoMode ∧
    (endCapture label s).framesGL = s.framesGL ∧
    (endCapture label s).quadList = s.quadList ∧
    (endCapture label s).width = s.width ∧
    (endCapture label s).height = s.height ∧
    (endCapture label s).presentedTargets = s.presentedTargets := by
  refine ⟨?_, ?_, ?_, ?_, rfl, ?_, rfl, rfl, rfl, rfl, rfl, rfl, rfl⟩
  · simp [endCapture, labelAt, List.getD_eq_getElem?_getD, List.getElem?_set_self h]
  · simp [endCapture, surfaceAt, List.getD_eq_getElem?_getD, List.getElem?_set_self h]
  · simp [endCapture, objectAt, List.getD_eq_getElem?_getD, List.getElem?_set_self h]
  · intro j hj
    simp [endCapture, List.getD_eq_getElem?_getD,
          List.getElem?_set_ne (Ne.symm hj)]
  · cases hm : s.stereoMode <;> simp [endCapture, hm]

/-- Witness for C7 at a concrete state. -/
theorem C7_endCapture_witness :
    (0 : Nat) < (readyState 4 3 7 8 5 6).target.length ∧
    labelAt (endCapture GL_BACK (readyState 4 3 7 8 5 6)) 0 = GL_BACK :=
  ⟨by decide, (C7_endCapture (readyState 4 3 7 8 5 6) GL_BACK (by decide)).1⟩

/-- C8: if the `SetRenderTarget` call that redirects the producer's
render destination to `pool[drawIndex]` fails inside `beginCapture`, the
process terminates immediately (`exit(1)`, modelled as `none`); when the
redirection succeeds and the current viewport was readable, the viewport
saved before the redirection is restored afterwards and only the render
target changes; when the viewport was not readable nothing is restored
and the viewport stays at the full-surface value set by the
redirection. -/
theorem C8_beginCapture (s : QState) (d : D3DDevice) :
    (d.setRenderTargetOk = false → beginCapture s d = none) ∧
    (d.setRenderTargetOk = true → d.getViewportOk = true →
      beginCapture s d = some { d with renderTarget := surfaceAt s s.drawIdx }) ∧
    (d.setRenderTargetOk = true → d.getViewportOk = false →
      beginCapture s d = some { d with
        renderTarget := surfaceAt s s.drawIdx,
        viewport := fullSurfaceViewport s.width s.height }) := by
  refine ⟨fun h => ?_, fun h hv => ?_, fun h hv => ?_⟩
  · simp [beginCapture, h]
  · simp [beginCapture, h, hv]
  · simp [beginCapture, h, hv]

/-- C2: a producer viewport-configuration call whose viewport has origin
x = 1, width = 2 and height = 3 — whatever its y origin — is treated as
the stereo signal: the mode flag becomes stereo, the transition is logged
exactly when the flag was not already set, and `endCapture` is called
with the left label immediately followed by `beginCapture`; any other
viewport geometry leaves the state untouched and emits no capture
events. -/
theorem C2_sentinel_detection :
    (∀ s v, v.x = 1 → v.width = 2 → v.height = 3 →
      onPreSetViewportDX (some v) s =
        (true, endCapture GL_BACK_LEFT { s with stereoMode := true },
         (if s.stereoMode then [] else [CEv.logStereoEnabled]) ++
           [CEv.endCaptureEv GL_BACK_LEFT, CEv.beginCaptureEv]) ∧
      (onPreSetViewportDX (some v) s).2.1.stereoMode = true) ∧
    (∀ s v, ¬(v.x = 1 ∧ v.width = 2 ∧ v.height = 3) →
      onPreSetViewportDX (some v) s = (true, s, [])) := by
  constructor
  · intro s v h1 h2 h3
    have hs : isSentinel v = true := by simp [isSentinel, h1, h2, h3]
    constructor
    · simp [onPreSetViewportDX, hs, onStereoSignal]
    · simp [onPreSetViewportDX, hs, onStereoSignal, endCapture]
  · intro s v h
    have hs : isSentinel v = false := by
      simp only [isSentinel, Bool.and_eq_true, beq_iff_eq, ← Bool.not_eq_true]
      intro hc
      exact h ⟨hc.1.1, hc.1.2, hc.2⟩
    simp [onPreSetViewportDX, hs]

/-- Witness for C2 at concrete viewports: the sentinel `(1, 9, 2, 3)`
triggers the signal from the mono initial state; the ordinary viewport
`(0, 0, 640, 480)` does not. -/
theorem C2_sentinel_detection_witness :
    onPreSetViewportDX (some ⟨1, 9, 2, 3⟩) initState =
      (true, endCapture GL_BACK_LEFT { initState with stereoMode := true },
       [CEv.logStereoEnabled, CEv.endCaptureEv GL_BACK_LEFT,
        CEv.beginCaptureEv]) ∧
    onPreSetViewportDX (some ⟨0, 0, 640, 480⟩) initState =
      (true, initState, []) :=
  ⟨((C2_sentinel_detection.1 initState ⟨1, 9, 2, 3⟩ rfl rfl rfl).1),
   C2_sentinel_detection.2 initState ⟨0, 0, 640, 480⟩ (by decide)⟩

/-- C3: the mono-to-stereo transition is one-way for the session: from
any state in stereo mode, running any sequence of core operations
(viewport calls, presents, composite passes, resizes, teardown of the
cached display list) leaves the mode flag stereo. -/
theorem C3_stereo_one_way (s : QState) (evs : List Ev)
    (h : s.stereoMode = true) : (run s evs).stereoMode = true := by
  induction evs generalizing s with
  | nil => exact h
  | cons e rest ih =>
    show (run (step s e) rest).stereoMode = true
    refine ih _ ?_
    cases e with
    | preSetViewport vp =>
      cases vp with
      | none => exact h
      | some v =>
        simp only [step, onPreSetViewportDX]
        split
        · simp [onStereoSignal, endCapture]
        · exact h
    | prePresent rt => simpa [step, onPrePresentDX, endCapture] using h
    | postPresent => exact h
    | paint cfg l0 l1 => rw [step, onPaint_stereoMode]; exact h
    | resize w hh => exact h
    | destroy => exact h

/-- Witness for C3 on a concrete stereo-mode state and trace. -/
theorem C3_stereo_one_way_witness :
    (run { initState with stereoMode := true }
      [Ev.prePresent 3, Ev.paint ⟨false, true, false⟩ true true,
       Ev.postPresent]).stereoMode = true :=
  C3_stereo_one_way { initState with stereoMode := true } _ rfl

/-- C6: a composite pass runs at most two iterations over the pool; each
iteration reads the slot at `readIndex` and advances `readIndex` modulo
the pool size, and the pass stops after an iteration whose slot label was
not `GL_BACK_LEFT`. Hence a mono frame (label not left) yields exactly
one iteration, and a stereo pair (left under `readIndex`, right in the
next slot) yields exactly two iterations, left then right, both emitted
before the display surface is presented. -/
theorem C6_composite_pass (s : QState) (cfg : Settings) (l0 l1 : Bool)
    (h2 : s.target.length = 2) :
    (labelAt s s.readIdx ≠ GL_BACK_LEFT →
      (onPaint cfg l0 l1 s).2 =
        [PEv.iter s.readIdx (labelAt s s.readIdx)
           ((objectAt s s.readIdx != 0) && l0)]
          ++ (if cfg.stereoIndicator then [PEv.indicator] else [])
          ++ [PEv.present, PEv.frameDone] ∧
      (onPaint cfg l0 l1 s).1.readIdx = (s.readIdx + 1) % 2) ∧
    (labelAt s s.readIdx = GL_BACK_LEFT →
      (onPaint cfg l0 l1 s).2 =
        [PEv.iter s.readIdx GL_BACK_LEFT ((objectAt s s.readIdx != 0) && l0),
         PEv.iter ((s.readIdx + 1) % 2) (labelAt s ((s.readIdx + 1) % 2))
           ((objectAt s ((s.readIdx + 1) % 2) != 0) && l1)]
          ++ (if cfg.stereoIndicator then [PEv.indicator] else [])
          ++ [PEv.present, PEv.frameDone] ∧
      (onPaint cfg l0 l1 s).1.readIdx = (s.readIdx + 2) % 2) := by
  constructor
  · intro hl
    have hb : (labelAt s s.readIdx != GL_BACK_LEFT) = true := by
      simp [hl]
    constructor
    · rw [onPaint_events, if_pos hb]
    · rw [onPaint_readIdx, if_pos hb, h2]
  · intro hl
    have hb : (labelAt s s.readIdx != GL_BACK_LEFT) = false := by
      simp [hl]
    constructor
    · rw [onPaint_events, if_neg (by simp [hb]), hl, h2]
    · rw [onPaint_readIdx, if_neg (by simp [hb]), h2]
      omega

/-- Witness for C6: a stereo pair tagged left then right from the ready
state yields exactly the two iterations, left then right. -/
theorem C6_composite_pass_witness :
    (labelAt
        (endCapture GL_BACK_RIGHT (endCapture GL_BACK_LEFT
          (readyState 4 3 7 8 5 6))) 0 = GL_BACK_LEFT) ∧
    (onPaint ⟨false, true, false⟩ true true
        (endCapture GL_BACK_RIGHT (endCapture GL_BACK_LEFT
          (readyState 4 3 7 8 5 6)))).2 =
      [PEv.iter 0 GL_BACK_LEFT true, PEv.iter 1 GL_BACK_RIGHT true,
       PEv.present, PEv.frameDone] :=
  ⟨by decide, by
    have h := (C6_composite_pass
      (endCapture GL_BACK_RIGHT (endCapture GL_BACK_LEFT
        (readyState 4 3 7 8 5 6))) ⟨false, true, false⟩ true true
      (by decide)).2 (by decide)
    rw [h.1]
    decide⟩

/-- C9: an interop lock failure during a composite pass only skips that
slot for that pass: the failed iteration is recorded (logged) with
`composited = false`; each of the two pool slots is visited at most once
per pass (no retry within the pass); the pool contents, both cursors and
the mode flag evolve exactly as they would had every lock succeeded, so
the next pass attempts the same slots again; and in stereo a failed lock
on the left slot does not prevent the right slot from being composited
in the same pass. -/
theorem C9_lock_failure_skip (s : QState) (cfg : Settings) (l0 l1 : Bool)
    (h2 : s.target.length = 2) :
    ((onPaint cfg l0 l1 s).1.readIdx = (onPaint cfg true true s).1.readIdx ∧
     (onPaint cfg l0 l1 s).1.target = s.target ∧
     (onPaint cfg l0 l1 s).1.drawIdx = s.drawIdx ∧
     (onPaint cfg l0 l1 s).1.stereoMode = s.stereoMode) ∧
    (l0 = false →
      (onPaint cfg l0 l1 s).2.head? =
        some (PEv.iter s.readIdx (labelAt s s.readIdx) false)) ∧
    (s.readIdx ≠ (s.readIdx + 1) % 2) ∧
    (labelAt s s.readIdx = GL_BACK_LEFT → l0 = false → l1 = true →
      objectAt s ((s.readIdx + 1) % 2) ≠ 0 →
      PEv.iter ((s.readIdx + 1) % 2) (labelAt s ((s.readIdx + 1) % 2)) true
        ∈ (onPaint cfg l0 l1 s).2) := by
  refine ⟨⟨?_, onPaint_target cfg l0 l1 s, onPaint_drawIdx cfg l0 l1 s,
      onPaint_stereoMode cfg l0 l1 s⟩, ?_, ?_, ?_⟩
  · rw [onPaint_readIdx, onPaint_readIdx]
  · intro hl0
    rw [onPaint_events, hl0]
    split <;> simp
  · omega
  · intro hl hl0 hl1 hobj
    have hb : (labelAt s s.readIdx != GL_BACK_LEFT) = false := by
      simp [hl]
    have ho : (objectAt s ((s.readIdx + 1) % 2) != 0) = true := by
      simpa using hobj
    rw [onPaint_events, if_neg (by simp [hb]), h2, hl1, ho]
    simp

/-- Witness for C9: stereo pair in the pool, left lock fails, right lock
succeeds — the right slot is still composited in the same pass. -/
theorem C9_lock_failure_skip_witness :
    PEv.iter 1 GL_BACK_RIGHT true ∈
      (onPaint ⟨false, true, false⟩ false true
        (endCapture GL_BACK_RIGHT (endCapture GL_BACK_LEFT
          (readyState 4 3 7 8 5 6)))).2 := by
  have h := (C9_lock_failure_skip
    (endCapture GL_BACK_RIGHT (endCapture GL_BACK_LEFT
      (readyState 4 3 7 8 5 6))) ⟨false, true, false⟩ false true
    (by decide)).2.2.2 (by decide) rfl rfl (by decide)
  simpa using h

/-- Witness for C8 at a concrete state and device. -/
theorem C8_beginCapture_witness :
    beginCapture (readyState 4 3 7 8 5 6)
        { viewport := ⟨0, 0, 4, 3⟩, getViewportOk := true,
          renderTarget := 9, setRenderTargetOk := false } = none :=
  (C8_beginCapture (readyState 4 3 7 8 5 6)
    { viewport := ⟨0, 0, 4, 3⟩, getViewportOk := true,
      renderTarget := 9, setRenderTargetOk := false }).1 rfl

/-! ## Invariant machinery for the cursor claim -/

/-- Labels are untouched by a composite pass. -/
lemma labelAt_onPaint (cfg : Settings) (l0 l1 : Bool) (s : QState)
    (i : Nat) : labelAt ((onPaint cfg l0 l1 s).1) i = labelAt s i := by
  unfold labelAt
  rw [onPaint_target]

/-- Invariance of `Inv` under changes that do not touch the pool or the
cursors. -/
lemma Inv_congr (q q2 : QState) (t r : Nat) (htg : q2.target = q.target)
    (hdw : q2.drawIdx = q.drawIdx) (hrd : q2.readIdx = q.readIdx)
    (h : Inv ⟨q, t, r⟩) : Inv ⟨q2, t, r⟩ := by
  obtain ⟨h1, h2, h3, h4, h5⟩ := h
  refine ⟨htg ▸ h1, hdw ▸ h2, hrd ▸ h3, ?_, ?_⟩
  · simpa [labelAt, htg] using h4
  · simpa [labelAt, htg] using h5

/-- Preservation of the cursor invariant by `endCapture` with a real
(nonzero) label, counting one more tag. -/
lemma Inv_endCapture (q : QState) (t r label : Nat) (hl : label ≠ GL_NONE)
    (h : Inv ⟨q, t, r⟩) : Inv ⟨endCapture label q, t + 1, r⟩ := by
  obtain ⟨hlen, hd, hr, h0, h1⟩ := h
  dsimp only at hlen hd hr h0 h1
  obtain ⟨a, b, hab⟩ := target_len2 hlen
  unfold Inv
  dsimp only
  simp only [labelAt, hab, List.getD_cons_zero, List.getD_cons_succ]
    at h0 h1 ⊢
  rcases Nat.mod_two_eq_zero_or_one t with ht | ht
  · rw [ht] at hd
    simp only [endCapture, hab, hd, List.getD_cons_zero, List.set_cons_zero,
      List.length_cons, List.length_nil, List.getD_cons_succ]
    refine ⟨by trivial, by omega, hr, ?_, ?_⟩
    · simp only [ne_eq, hl, not_false_eq_true, true_iff]
      omega
    · rw [h1]
      omega
  · rw [ht] at hd
    simp only [endCapture, hab, hd, List.getD_cons_succ, List.getD_cons_zero,
      List.set_cons_succ, List.set_cons_zero, List.length_cons,
      List.length_nil]
    refine ⟨by trivial, by omega, hr, ?_, ?_⟩
    · rw [h0]
      omega
    · simp only [ne_eq, hl, not_false_eq_true, true_iff]
      omega

/-- Preservation of the cursor invariant and safety of the logged reads
across one instrumented step. -/
lemma gstep_inv (g : GState) (e : Ev) (hInv : Inv g) :
    Inv (gstep g e).1 ∧ ∀ x ∈ (gstep g e).2, GoodEntry x := by
  obtain ⟨q, t, r⟩ := g
  cases e with
  | postPresent =>
    refine ⟨?_, by simp [gstep, readLogOf]⟩
    simpa [gstep, step, tagsOfEv, readLogOf] using hInv
  | resize w hgt =>
    refine ⟨?_, by simp [gstep, readLogOf]⟩
    simp only [gstep, step, tagsOfEv, readLogOf, List.length_nil,
      Nat.add_zero]
    exact Inv_congr q _ t r rfl rfl rfl hInv
  | destroy =>
    refine ⟨?_, by simp [gstep, readLogOf]⟩
    simp only [gstep, step, tagsOfEv, readLogOf, List.length_nil,
      Nat.add_zero]
    exact Inv_congr q _ t r rfl rfl rfl hInv
  | prePresent rt =>
    refine ⟨?_, by simp [gstep, readLogOf]⟩
    simp only [gstep, step, tagsOfEv, readLogOf, List.length_nil,
      Nat.add_zero, onPrePresentDX]
    refine Inv_endCapture _ t r _ ?_ ?_
    · split <;> decide
    · exact Inv_congr q _ t r rfl rfl rfl hInv
  | preSetViewport vp =>
    cases vp with
    | none =>
      refine ⟨?_, by simp [gstep, readLogOf]⟩
      simpa [gstep, step, tagsOfEv, readLogOf, onPreSetViewportDX] using hInv
    | some v =>
      refine ⟨?_, by simp [gstep, readLogOf]⟩
      by_cases hs : isSentinel v
      · simp only [gstep, step, tagsOfEv, readLogOf, List.length_nil,
          Nat.add_zero, onPreSetViewportDX, hs, if_true, onStereoSignal]
        refine Inv_endCapture _ t r _ (by decide) ?_
        exact Inv_congr q _ t r rfl rfl rfl hInv
      · simpa [gstep, step, tagsOfEv, readLogOf, onPreSetViewportDX, hs]
          using hInv
  | paint cfg l0 l1 =>
    have hlen := hInv.1
    have hd := hInv.2.1
    have hr := hInv.2.2.1
    have h0 := hInv.2.2.2.1
    have h1 := hInv.2.2.2.2
    dsimp only at hlen hd hr h0 h1
    by_cases hc : (labelAt q q.readIdx != GL_BACK_LEFT) = true
    · constructor
      · refine ⟨?_, ?_, ?_, ?_, ?_⟩
        · simp only [gstep, step]
          rw [onPaint_target]
          exact hlen
        · simp only [gstep, step]
          rw [onPaint_drawIdx]
          simpa [tagsOfEv] using hd
        · simp only [gstep, step, readLogOf, hc, if_true]
          rw [onPaint_readIdx, if_pos hc, hlen, hr]
          simp only [List.length_cons, List.length_nil]
          omega
        · simp only [gstep, step, labelAt_onPaint]
          exact h0
        · simp only [gstep, step, labelAt_onPaint]
          exact h1
      · intro x hx
        simp only [gstep, readLogOf, hc, if_true, List.mem_singleton] at hx
        subst hx
        intro hlt
        dsimp only at hlt ⊢
        simp only [hr]
        rcases Nat.mod_two_eq_zero_or_one r with h2 | h2 <;> rw [h2]
        · rw [h0]
          omega
        · rw [h1]
          omega
    · have hcf : (labelAt q q.readIdx != GL_BACK_LEFT) = false := by
        revert hc
        cases labelAt q q.readIdx != GL_BACK_LEFT <;> simp
      constructor
      · refine ⟨?_, ?_, ?_, ?_, ?_⟩
        · simp only [gstep, step]
          rw [onPaint_target]
          exact hlen
        · simp only [gstep, step]
          rw [onPaint_drawIdx]
          simpa [tagsOfEv] using hd
        · simp only [gstep, step, readLogOf, hcf, Bool.false_eq_true, if_false]
          rw [onPaint_readIdx, if_neg (by simp [hcf]), hlen, hr]
          simp only [List.length_cons, List.length_nil]
          omega
        · simp only [gstep, step, labelAt_onPaint]
          exact h0
        · simp only [gstep, step, labelAt_onPaint]
          exact h1
      · intro x hx
        simp only [gstep, readLogOf, hcf, Bool.false_eq_true, if_false,
          List.mem_cons, List.mem_singleton, List.not_mem_nil, or_false] at hx
        rcases hx with hx | hx <;> subst hx <;> intro hlt <;>
            dsimp only at hlt ⊢ <;>
          simp only [hr, hlen]
        · rcases Nat.mod_two_eq_zero_or_one r with h2 | h2 <;> rw [h2]
          · rw [h0]
            omega
          · rw [h1]
            omega
        · rcases Nat.mod_two_eq_zero_or_one r with h2 | h2 <;> rw [h2]
          · rw [(by omega : (0 + 1) % 2 = 1), h1]
            omega
          · rw [(by omega : (1 + 1) % 2 = 0), h0]
            omega

/-- Preservation of the cursor invariant and safety of all logged reads
along any instrumented run. -/
lemma grun_inv (evs : List Ev) (g : GState) (hInv : Inv g) :
    Inv (grun g evs).1 ∧ ∀ x ∈ (grun g evs).2, GoodEntry x := by
  induction evs generalizing g with
  | nil => exact ⟨hInv, by simp [grun]⟩
  | cons e rest ih =>
    obtain ⟨ha, hb⟩ := gstep_inv g e hInv
    obtain ⟨hc, hd⟩ := ih _ ha
    refine ⟨by simpa [grun] using hc, ?_⟩
    intro x hx
    simp only [grun, List.mem_append] at hx
    rcases hx with hx | hx
    · exact hb x hx
    · exact hd x hx

/-- Start of an instrumented session satisfies the cursor invariant. -/
lemma Inv_ginit (w h s0 s1 o0 o1 : Nat) : Inv (ginit w h s0 s1 o0 o1) := by
  refine ⟨rfl, rfl, rfl, ?_, ?_⟩ <;>
    simp [labelAt, ginit, readyState, GL_NONE]

/-- C4 counterexample: a composite pass that runs before any `endCapture`
(as happens when the GL window receives its first `WM_PAINT` on being
shown, before the producer has presented a frame) selects pool slot 0
whose label is still none (`GL_NONE`) — and, the interop objects being
registered, composites it — refuting the claim that a never-tagged slot
is never selected for composite. -/
theorem C4_counterexample :
    (grun (ginit 640 480 7 8 5 6)
        [Ev.paint ⟨false, true, false⟩ true true]).2 =
      [⟨0, 0, 0, GL_NONE⟩] ∧
    PEv.iter 0 GL_NONE true ∈
      (onPaint ⟨false, true, false⟩ true true
        (readyState 640 480 7 8 5 6)).2 := by
  constructor
  · decide
  · decide

/-- C4 amended: both cursors always lie in `[0, poolSize)` along any run
from a fresh session; `drawIndex` is advanced (by one, modulo the pool
size) only by the operations that perform `endCapture` — the present
handler and the sentinel viewport — and is untouched by composite
passes, while `readIndex` is advanced (by one per iteration, modulo the
pool size) only by composite passes and is untouched by every producer
operation; and a slot whose label is still none is never selected by a
composite iteration that has been preceded by strictly more `endCapture`
calls than prior composite iterations (the unsolicited-pass
counterexample above is the only way to reach a never-tagged slot). -/
theorem C4_cursor_discipline :
    (∀ w h s0 s1 o0 o1 evs,
      (grun (ginit w h s0 s1 o0 o1) evs).1.q.drawIdx < poolSize ∧
      (grun (ginit w h s0 s1 o0 o1) evs).1.q.readIdx < poolSize) ∧
    (∀ s cfg l0 l1,
      (step s (Ev.paint cfg l0 l1)).drawIdx = s.drawIdx ∧
      ((step s (Ev.paint cfg l0 l1)).readIdx
          = (s.readIdx + 1) % s.target.length ∨
       (step s (Ev.paint cfg l0 l1)).readIdx
          = ((s.readIdx + 1) % s.target.length + 1) % s.target.length)) ∧
    (∀ s rt,
      (step s (Ev.prePresent rt)).readIdx = s.readIdx ∧
      (step s (Ev.prePresent rt)).drawIdx
        = (s.drawIdx + 1) % s.target.length) ∧
    (∀ s v,
      (step s (Ev.preSetViewport (some v))).readIdx = s.readIdx ∧
      (isSentinel v = true →
        (step s (Ev.preSetViewport (some v))).drawIdx
          = (s.drawIdx + 1) % s.target.length) ∧
      (isSentinel v = false →
        step s (Ev.preSetViewport (some v)) = s)) ∧
    (∀ s, step s (Ev.preSetViewport none) = s) ∧
    (∀ s, step s Ev.postPresent = s) ∧
    (∀ s w h, (step s (Ev.resize w h)).drawIdx = s.drawIdx ∧
      (step s (Ev.resize w h)).readIdx = s.readIdx) ∧
    (∀ s, (step s Ev.destroy).drawIdx = s.drawIdx ∧
      (step s Ev.destroy).readIdx = s.readIdx) ∧
    (∀ w h s0 s1 o0 o1 evs x,
      x ∈ (grun (ginit w h s0 s1 o0 o1) evs).2 →
      x.readsBefore < x.tagsAt → x.label ≠ GL_NONE) := by
  refine ⟨?_, ?_, ?_, ?_, fun s => rfl, fun s => rfl,
    fun s w h => ⟨rfl, rfl⟩, fun s => ⟨rfl, rfl⟩, ?_⟩
  · intro w h s0 s1 o0 o1 evs
    obtain ⟨⟨hlen, hd, hr, h0, h1⟩, hgood⟩ :=
      grun_inv evs (ginit w h s0 s1 o0 o1) (Inv_ginit w h s0 s1 o0 o1)
    constructor <;> simp only [poolSize] <;> omega
  · intro s cfg l0 l1
    refine ⟨?_, ?_⟩
    · simp only [step]
      exact onPaint_drawIdx cfg l0 l1 s
    · simp only [step]
      rw [onPaint_readIdx]
      split
      · exact Or.inl rfl
      · exact Or.inr rfl
  · intro s rt
    exact ⟨rfl, rfl⟩
  · intro s v
    by_cases hs : isSentinel v = true
    · refine ⟨?_, fun _ => ?_, fun hf => absurd hs (by simp [hf])⟩ <;>
        simp only [step, onPreSetViewportDX, hs, if_true, onStereoSignal,
          endCapture]
    · have hs2 : isSentinel v = false := by
        revert hs
        cases isSentinel v <;> simp
      refine ⟨?_, fun ht => absurd ht (by simp [hs2]), fun _ => ?_⟩ <;>
        simp only [step, onPreSetViewportDX, hs2, Bool.false_eq_true,
          if_false]
  · intro w h s0 s1 o0 o1 evs x hx hlt
    exact (grun_inv evs (ginit w h s0 s1 o0 o1)
      (Inv_ginit w h s0 s1 o0 o1)).2 x hx hlt

/-- Witness for C4 at concrete inputs: the sentinel viewport advances the
producer cursor, and a logged read with `readsBefore < tagsAt` (here the
first composite after one present) carries a real label. -/
theorem C4_cursor_discipline_witness :
    isSentinel ⟨1, 0, 2, 3⟩ = true ∧
    (step initState (Ev.preSetViewport (some ⟨1, 0, 2, 3⟩))).drawIdx
      = (initState.drawIdx + 1) % initState.target.length ∧
    (⟨0, 1, 0, GL_BACK⟩ : ReadLogEntry) ∈
      (grun (ginit 4 3 7 8 5 6)
        [Ev.prePresent 3, Ev.paint ⟨false, true, false⟩ true true]).2 ∧
    (0 : Nat) < 1 ∧ (GL_BACK : Nat) ≠ GL_NONE :=
  ⟨rfl,
   (C4_cursor_discipline.2.2.2.1 initState ⟨1, 0, 2, 3⟩).2.1 rfl,
   by decide,
   by decide,
   C4_cursor_discipline.2.2.2.2.2.2.2.2 4 3 7 8 5 6
     [Ev.prePresent 3, Ev.paint ⟨false, true, false⟩ true true]
     ⟨0, 1, 0, GL_BACK⟩ (by decide) (by decide)⟩

/-- C5 counterexample: with every producer-side `CreateRenderTarget`
call failing during one-time resource creation, `createResources`
nevertheless starts the consumer (GL) thread and marks initialization
complete, and requests no quit — refuting the claim that on any
allocation failure the consumer thread is not started and initialization
is not marked complete. -/
theorem C5_counterexample :
    createResources false false false =
      { surfacesCreated := 0, threadStarted := true, initialised := true,
        quitRequested := false } := rfl

/-- C5 amended: a consumer-side resource failure (extension loading,
interop device opening, per-slot image/renderbuffer generation, missing
share-handle entry point, interop registration, or framebuffer
generation) makes `onCreate` fail, whereupon the GL thread posts a quit
to the host window and never enters its message loop; but
`createResources` starts the consumer thread and sets the
initialised flag regardless of producer-side render-target allocation
failures (such a failure surfaces only later, through the consumer-side
interop setup failing). -/
theorem C5_resource_failure (gl : GLSetupInputs) (a0 a1 : Bool)
    (h : onCreate gl = false) :
    threadFunc true gl =
      { messageLoopEntered := false, quitRequestedOnSource := true } ∧
    (createResources false a0 a1).threadStarted = true ∧
    (createResources false a0 a1).initialised = true ∧
    (createResources false a0 a1).quitRequested = false := by
  refine ⟨?_, rfl, rfl, rfl⟩
  simp [threadFunc, h]

/-- Witness for C5 at a concrete failing consumer-side setup. -/
theorem C5_resource_failure_witness :
    onCreate ⟨false, true, true, true, true, true, true, true, true⟩ = false ∧
    threadFunc true ⟨false, true, true, true, true, true, true, true, true⟩ =
      { messageLoopEntered := false, quitRequestedOnSource := true } :=
  ⟨by decide,
   (C5_resource_failure ⟨false, true, true, true, true, true, true, true, true⟩
     true true (by decide)).1⟩

end Quadifier
